import Mathlib

/-!
Verification of the custom Catalyst example callbacks
(`examples/mnist_gans/callbacks.py`, `examples/mnist_advanced_gans/callbacks.py`,
`examples/autoencoders/custom_callbacks.py`).

Python dictionaries (`state.input`, `state.output`, `state.metrics`,
`state.loggers`) are embedded as association lists with first-match lookup
and in-place update; tensors appear either as their outer-dimension list of
(rational) entries, or as a shape/flat-data record where the dimensionality
matters.  Python exceptions are embedded as `Except String`.
-/

namespace Catalyst

/-- First-match lookup in an association list, like Python `d[k]` /
`k in d` on a dict. -/
def lookup {α : Type} : List (String × α) → String → Option α
  | [], _ => none
  | (k', v) :: rest, k => if k' = k then some v else lookup rest k

/-- Python `d[k] = v`: replace the entry when the key is present,
append it otherwise. -/
def setKey {α : Type} : List (String × α) → String → α → List (String × α)
  | [], k, v => [(k, v)]
  | (k', v') :: rest, k, v =>
      if k' = k then (k, v) :: rest else (k', v') :: setKey rest k v

theorem lookup_setKey_self {α : Type} (d : List (String × α)) (k : String) (v : α) :
    lookup (setKey d k v) k = some v := by
  induction d with
  | nil => simp [setKey, lookup]
  | cons hd tl ih =>
    obtain ⟨k', v'⟩ := hd
    by_cases h : k' = k
    · simp [setKey, lookup, h]
    · simp [setKey, lookup, h, ih]

theorem lookup_setKey_other {α : Type} (d : List (String × α)) (k k' : String)
    (v : α) (hne : k' ≠ k) : lookup (setKey d k v) k' = lookup d k' := by
  have hkk : ¬ k = k' := fun h => hne h.symm
  induction d with
  | nil => simp [setKey, lookup, hkk]
  | cons hd tl ih =>
    obtain ⟨k0, v0⟩ := hd
    by_cases h : k0 = k
    · subst h
      simp [setKey, lookup, hkk, if_neg hkk]
    · simp only [setKey, lookup, if_neg h]
      by_cases h' : k0 = k'
      · simp [lookup, h']
      · simp [lookup, h', ih]

/-! ## Wasserstein distance metric (C1)

`MultiKeyMetricCallback` / `WassersteinDistanceCallback` from
`mnist_gans/callbacks.py` (identical in `mnist_advanced_gans/callbacks.py`).
A validity tensor is its list of entries; `.mean()` is sum over length. -/

/-- `tensor.mean()` for a one-dimensional tensor of rationals. -/
def tensorMean (xs : List ℚ) : ℚ := xs.sum / xs.length

/-- `MultiKeyMetricCallback._get(dictionary, keys)` for the list-of-keys case:
`{key: dictionary[key] for key in keys}`; `none` models the `KeyError` when a
key is missing. -/
def getSubDict (d : List (String × List ℚ)) (keys : List String) :
    Option (List (String × List ℚ)) :=
  keys.foldr
    (fun k acc =>
      match lookup d k, acc with
      | some v, some r => some ((k, v) :: r)
      | _, _ => none)
    (some [])

/-- `WassersteinDistanceCallback.get_wasserstein_distance`:
`outputs[real_key].mean() - outputs[fake_key].mean()`. -/
def getWassersteinDistance (realKey fakeKey : String)
    (outputs : List (String × List ℚ)) : Option ℚ :=
  match lookup outputs realKey, lookup outputs fakeKey with
  | some rv, some fv => some (tensorMean rv - tensorMean fv)
  | _, _ => none

/-- `state.metrics.add_batch_value(name=..., value=...)`: record the value
under the given name. -/
def addBatchValue (metrics : List (String × ℚ)) (name : String) (value : ℚ) :
    List (String × ℚ) := setKey metrics name value

/-- `WassersteinDistanceCallback.on_batch_end`: extract the two validity
tensors from `state.output` via `_get`, compute the metric, record it. -/
def wassersteinOnBatchEnd (pfx realKey fakeKey : String)
    (output : List (String × List ℚ)) (metrics : List (String × ℚ)) :
    Option (List (String × ℚ)) :=
  match getSubDict output [realKey, fakeKey] with
  | none => none
  | some outs =>
    match getWassersteinDistance realKey fakeKey outs with
    | none => none
    | some m => some (addBatchValue metrics pfx m)

/-! ## Visualization batch counter and visualized flag (C8, C10)

The private state of `VisualizationCallback`
(`_loader_batch_count`, `_loader_visualized_in_current_epoch`),
identical in all three source files. -/

structure VizState where
  loader_batch_count : ℕ
  visualized : Bool
deriving DecidableEq, Repr

/-- `VisualizationCallback._reset`. -/
def vizReset : VizState := ⟨0, false⟩

/-- `VisualizationCallback.on_loader_start`: calls `_reset`. -/
def vizOnLoaderStart (_ : VizState) : VizState := vizReset

/-- `VisualizationCallback.visualize` effect on the private state: the
tensorboard write itself is host-framework territory; the flag is set. -/
def vizVisualize (s : VizState) : VizState := { s with visualized := true }

/-- `VisualizationCallback.on_loader_end`: visualize when nothing was
visualized in the pass.  The boolean reports whether `visualize` ran. -/
def vizOnLoaderEnd (s : VizState) : VizState × Bool :=
  if !s.visualized then (vizVisualize s, true) else (s, false)

/-- `VisualizationCallback.on_batch_end`: increment the counter, then
visualize when `count % batch_frequency` is truthy (nonzero).  The boolean
reports whether `visualize` ran. -/
def vizOnBatchEnd (s : VizState) (batch_frequency : ℕ) : VizState × Bool :=
  let c := s.loader_batch_count + 1
  if c % batch_frequency ≠ 0 then (vizVisualize { s with loader_batch_count := c }, true)
  else ({ s with loader_batch_count := c }, false)

/-! ## Weight clamping after optimizer step (C2)

`WeightClampingOptimizerCallback.on_batch_end` in `mnist_gans/callbacks.py`
(identical as `LipzOptimizerCallback` in `mnist_advanced_gans/callbacks.py`).
The parent `OptimizerCallback.on_batch_end` (the optimizer step itself) is
host-framework code; only the clamping stage after it is embedded.  An
optimizer is its `param_groups`: a list of groups, each a list of parameter
tensors, each a flat list of rational values. -/

/-- `tensor.clamp_(min=lo, max=hi)` on one scalar entry. -/
def clampValue (lo hi x : ℚ) : ℚ := min hi (max lo x)

/-- The clamping loop over `optimizer.param_groups`. -/
def clampParamGroups (c : ℚ) (groups : List (List (List ℚ))) :
    List (List (List ℚ)) :=
  groups.map (fun g => g.map (fun p => p.map (clampValue (-c) c)))

/-- The clamping stage of `WeightClampingOptimizerCallback.on_batch_end`
(after `super().on_batch_end(state)` returns): skip when
`state.need_backward` is false, clamp every parameter when
`_accumulation_counter % accumulation_steps == 0`. -/
def weightClampingOnBatchEnd (need_backward : Bool)
    (accumulation_counter accumulation_steps : ℕ) (weight_clamp_value : ℚ)
    (groups : List (List (List ℚ))) : List (List (List ℚ)) :=
  if !need_backward then groups
  else if accumulation_counter % accumulation_steps = 0 then
    clampParamGroups weight_clamp_value groups
  else groups

/-! ## Batch noise injection (C5)

`AddBatchNoiseCallback` from `mnist_advanced_gans/callbacks.py`.  A tensor is
a shape together with flat data; `torch.randn` draws its entries from a
randomness source passed in explicitly. -/

structure QTensor where
  shape : List ℕ
  data : List ℚ
deriving DecidableEq, Repr

/-- `tensor.size(0)`. -/
def QTensor.size0 (t : QTensor) : ℕ := t.shape.headD 0

/-- `torch.randn(shape)` with an explicit randomness source. -/
def randn (shape : List ℕ) (noise : ℕ → ℚ) : QTensor :=
  ⟨shape, (List.range shape.prod).map noise⟩

/-- The `AddBatchNoiseCallback.__init__` normalization of `noise_shape`:
`tuple(noise_shape) if isinstance(noise_shape, (tuple, list)) else (noise_shape,)`. -/
inductive NoiseShapeArg
  | int (n : ℕ)
  | tup (l : List ℕ)
  | lst (l : List ℕ)

def normalizeNoiseShape : NoiseShapeArg → List ℕ
  | .int n => [n]
  | .tup l => l
  | .lst l => l

/-- `AddBatchNoiseCallback.on_batch_start`: read the batch size from the
data tensor (asserting `data_key in state.input`), assert the noise key is
absent, then store `torch.randn((batch_size,) + noise_shape)` under it. -/
def addBatchNoiseOnBatchStart (data_key injected_noise_key : String)
    (noise_shape : List ℕ) (noise : ℕ → ℚ)
    (input : List (String × QTensor)) :
    Except String (List (String × QTensor)) :=
  match lookup input data_key with
  | none => .error "AssertionError"
  | some data =>
    let batch_size := data.size0
    if (lookup input injected_noise_key).isSome then .error "AssertionError"
    else
      let z_shape := batch_size :: noise_shape
      .ok (setKey input injected_noise_key (randn z_shape noise))

/-! ## Same-class feature repetition (C9)

`SameClassFeaturesRepeatCallback` from `mnist_advanced_gans/callbacks.py`.
Every operation acts along dimension 0, so a batch tensor is embedded as
the list of its dim-0 slices (each slice one rational). -/

/-- `SameClassFeaturesRepeatCallback.on_batch_start`: sanity-check the
targets when `targets_key` is set (present, right size, even batch,
`torch.equal` halves), then store `torch.cat((data[:b//2], data[b//2:]),
dim=0)` under `same_class_data_key`, asserting that key was absent. -/
def sameClassRepeatOnBatchStart (data_key same_class_data_key : String)
    (targets_key : Option String) (input : List (String × List ℚ)) :
    Except String (List (String × List ℚ)) :=
  match lookup input data_key with
  | none => .error "AssertionError"
  | some dataT =>
    let batch_size := dataT.length
    let check : Except String Unit :=
      match targets_key with
      | none => .ok ()
      | some tk =>
        match lookup input tk with
        | none => .error "AssertionError"
        | some target =>
          if target.length ≠ batch_size then .error "AssertionError"
          else if batch_size % 2 ≠ 0 then
            .error "AssertionError: batch size must be evenly divisible"
          else if target.take (batch_size / 2) ≠ target.drop (batch_size / 2) then
            .error "AssertionError: Batch targets sanity check failed"
          else .ok ()
    match check with
    | .error e => .error e
    | .ok _ =>
      if (lookup input same_class_data_key).isSome then .error "AssertionError"
      else
        .ok (setKey input same_class_data_key
          (dataT.take (batch_size / 2) ++ dataT.drop (batch_size / 2)))

/-! ## VisualizationCallback constructor (C4, C6)

`VisualizationCallback.__init__` from `mnist_gans/callbacks.py` /
`mnist_advanced_gans/callbacks.py` (identical) and the variant in
`autoencoders/custom_callbacks.py`.  A Python argument that may be `None`,
a string, a tuple, a list, or anything else is embedded as `KeysArg`;
`denorm` (a string or `None`) as `Option String`. -/

inductive KeysArg
  | pynone
  | str (s : String)
  | tup (l : List String)
  | lst (l : List String)
  | other

/-- The key-argument normalization branch of `__init__`: `None` becomes `[]`,
a string becomes a one-element list, a tuple or list of strings is kept, and
anything else raises `ValueError`. -/
def normalizeKeys : KeysArg → Except String (List String)
  | .pynone => .ok []
  | .str s => .ok [s]
  | .tup l => .ok l
  | .lst l => .ok l
  | .other => .error "ValueError: unexpected format"

/-- The two denormalization functions `__init__` can install. -/
inductive DenormFn
  | halfShift
  | ident
deriving DecidableEq, Repr

/-- `lambda x: x / 2 + .5` respectively `lambda x: x`. -/
def DenormFn.apply : DenormFn → ℚ → ℚ
  | .halfShift, x => x / 2 + 1 / 2
  | .ident, x => x

/-- Python `str.lower()` (the arguments in play are ASCII). -/
def pyLower (s : String) : String := ⟨s.data.map Char.toLower⟩

/-- The `denorm` branch of `__init__` in `mnist_gans/callbacks.py` and
`mnist_advanced_gans/callbacks.py`: the first test is
`denorm.lower() == "default"`, so a `None` argument hits
`None.lower()` and raises `AttributeError` before the
`denorm is None` test of the `elif` is ever reached. -/
def denormGans : Option String → Except String DenormFn
  | none => .error "AttributeError"
  | some s =>
    if pyLower s = "default" then .ok .halfShift
    else if pyLower s = "none" then .ok .ident
    else .error "ValueError: unknown denorm fn"

/-- The `denorm` branch of `__init__` in `autoencoders/custom_callbacks.py`:
`denorm == 'default'` is compared first, then `denorm is None`. -/
def denormAuto : Option String → Except String DenormFn
  | some s =>
    if s = "default" then .ok .halfShift
    else .error "ValueError: unknown denorm fn"
  | none => .ok .ident

structure VizConfig where
  input_keys : List String
  output_keys : List String
  batch_frequency : ℤ
  concat_images : Bool
  denorm : DenormFn
deriving Repr

/-- `VisualizationCallback.__init__` (mnist_gans variant): normalize both
key arguments, reject the useless all-empty configuration, convert and
assert `batch_frequency > 0`, then install the denormalization function. -/
def vizInit (input_keys output_keys : KeysArg) (batch_frequency : ℤ)
    (concat_images : Bool) (denorm : Option String) :
    Except String VizConfig :=
  match normalizeKeys input_keys with
  | .error e => .error e
  | .ok ik =>
    match normalizeKeys output_keys with
    | .error e => .error e
    | .ok ok_ =>
      if ik.length + ok_.length = 0 then
        .error "ValueError: Useless visualizer"
      else if batch_frequency ≤ 0 then .error "AssertionError"
      else
        match denormGans denorm with
        | .error e => .error e
        | .ok d => .ok ⟨ik, ok_, batch_frequency, concat_images, d⟩

/-! ## Tensorboard logger lookup (C7)

`VisualizationCallback._get_tensorboard_logger` /
`save_visualizations` from `mnist_gans/callbacks.py`
(identical in `mnist_advanced_gans/callbacks.py`).  `state.loggers` maps
logger names to logger holders; the tensorboard holder maps loader names to
summary writers, which stay abstract. -/

/-- `_get_tensorboard_logger`: return
`state.loggers["tensorboard"].loggers[state.loader_name]` when both keys are
present, raise `RuntimeError` otherwise. -/
def getTensorboardLogger {W : Type} (loggers : List (String × List (String × W)))
    (loader_name : String) : Except String W :=
  match lookup loggers "tensorboard" with
  | some tb =>
    match lookup tb loader_name with
    | some w => .ok w
    | none => .error "RuntimeError: Cannot find Tensorboard logger"
  | none => .error "RuntimeError: Cannot find Tensorboard logger"

/-- `save_visualizations`: look the logger up, then write the images via the
host framework (which raises no `RuntimeError`). -/
def saveVisualizations {W : Type} (loggers : List (String × List (String × W)))
    (loader_name : String) : Except String Unit :=
  match getTensorboardLogger loggers loader_name with
  | .error e => .error e
  | .ok _ => .ok ()

/-! ## One-hot target expansion (C3)

`OneHotTransformCallback` from `mnist_advanced_gans/callbacks.py`.  An
integer tensor is a shape together with flat integer data; `ndim` is the
length of the shape.  The fancy-index assignment
`targets_one_hot[arange(batch_size), targets] = 1` is embedded for
nonnegative in-range indices with matching lengths; the mismatched or
out-of-range cases surface as torch `IndexError`s (torch's negative-index
wrap-around, which no claim touches, is folded into that error case). -/

structure IntTensor where
  shape : List ℕ
  data : List ℤ
deriving DecidableEq, Repr

/-- `tensor.ndim`. -/
def IntTensor.ndim (t : IntTensor) : ℕ := t.shape.length

/-- `tensor.size(0)`. -/
def IntTensor.size0 (t : IntTensor) : ℕ := t.shape.headD 0

/-- Row `i` of `torch.zeros((batch_size, n_classes))` after
`targets_one_hot[arange(batch_size), targets] = 1`: a one at column
`targets[i]`, zeros elsewhere. -/
def oneHotRow (n_classes : ℕ) (target : ℤ) : List ℤ :=
  (List.range n_classes).map (fun (j : ℕ) => if target = (j : ℤ) then 1 else 0)

/-- The full one-hot matrix, row by row. -/
def oneHotMatrix (batch_size n_classes : ℕ) (tgt : List ℤ) : List (List ℤ) :=
  (List.range batch_size).map (fun i => oneHotRow n_classes (tgt.getD i 0))

/-- `OneHotTransformCallback.on_batch_start`: read the batch size from the
data tensor, assert the target key is present and the one-hot key absent,
raise `NotImplementedError` for a multi-dimensional target tensor, build the
one-hot tensor of shape `(batch_size, n_classes)` and store it. -/
def oneHotOnBatchStart (n_classes : ℕ)
    (data_key target_key one_hot_target_key : String)
    (input : List (String × IntTensor)) :
    Except String (List (String × IntTensor)) :=
  match lookup input data_key with
  | none => .error "AssertionError"
  | some data =>
    let batch_size := data.size0
    match lookup input target_key with
    | none => .error "AssertionError"
    | some targets =>
      if (lookup input one_hot_target_key).isSome then .error "AssertionError"
      else if targets.ndim > 1 then .error "NotImplementedError"
      else if targets.data.length ≠ batch_size then .error "IndexError"
      else if ¬ targets.data.all (fun t => decide (0 ≤ t ∧ t < (n_classes : ℤ))) then
        .error "IndexError"
      else
        .ok (setKey input one_hot_target_key
          ⟨[batch_size, n_classes],
            (oneHotMatrix batch_size n_classes targets.data).flatten⟩)

/-- Row-major indexing into a flattened matrix of fixed-width rows. -/
theorem flatten_getD_eq {n : ℕ} :
    ∀ (L : List (List ℤ)) (i j : ℕ), (∀ r ∈ L, r.length = n) →
      i < L.length → j < n →
      L.flatten.getD (i * n + j) 0 = (L.getD i []).getD j 0 := by
  intro L
  induction L with
  | nil =>
    intro i j _ hi _
    exact absurd hi (by simp)
  | cons r L ih =>
    intro i j hlen hi hj
    have hr : r.length = n := hlen r (List.mem_cons_self r L)
    cases i with
    | zero =>
      rw [List.flatten_cons, Nat.zero_mul, Nat.zero_add, List.getD_cons_zero,
        List.getD_append _ _ _ _ (by omega)]
    | succ i' =>
      rw [List.flatten_cons, List.getD_cons_succ,
        List.getD_append_right _ _ _ _
          (by rw [hr, Nat.succ_mul]; omega)]
      have harith : (i' + 1) * n + j - r.length = i' * n + j := by
        rw [hr, Nat.succ_mul]; omega
      rw [harith]
      exact ih i' j (fun s hs => hlen s (List.mem_cons_of_mem r hs))
        (by simpa using hi) hj

end Catalyst

namespace CatalystClaims
open Catalyst

/-- C1: when `state.output` holds (nonempty) validity tensors under both the
real-validity key and the fake-validity key,
`WassersteinDistanceCallback.on_batch_end` computes
`mean(real_validity) - mean(fake_validity)` and records exactly that value
in `state.metrics` under the callback's prefix. -/
theorem wasserstein_on_batch_end_records_mean_difference
    (pfx realKey fakeKey : String)
    (output : List (String × List ℚ)) (metrics : List (String × ℚ))
    (rv fv : List ℚ)
    (hr : lookup output realKey = some rv)
    (hf : lookup output fakeKey = some fv)
    (_hrne : rv ≠ []) (_hfne : fv ≠ []) :
    wassersteinOnBatchEnd pfx realKey fakeKey output metrics =
      some (addBatchValue metrics pfx (tensorMean rv - tensorMean fv)) := by
  by_cases hk : realKey = fakeKey
  · subst hk
    have hrv : rv = fv := by
      have := hr.symm.trans hf
      exact Option.some.inj this
    subst hrv
    simp [wassersteinOnBatchEnd, getSubDict, getWassersteinDistance, lookup, hr]
  · have hk' : fakeKey ≠ realKey := fun h => hk h.symm
    simp [wassersteinOnBatchEnd, getSubDict, getWassersteinDistance, lookup, hr, hf, hk, hk']

/-- Witness for C1 at concrete dictionaries. -/
theorem wasserstein_on_batch_end_records_mean_difference_witness :
    wassersteinOnBatchEnd "wasserstein_distance" "real_validity" "fake_validity"
        [("real_validity", [(1 : ℚ), 3]), ("fake_validity", [(2 : ℚ)])] [] =
      some (addBatchValue [] "wasserstein_distance"
        (tensorMean [(1 : ℚ), 3] - tensorMean [(2 : ℚ)])) :=
  wasserstein_on_batch_end_records_mean_difference
    "wasserstein_distance" "real_validity" "fake_validity"
    [("real_validity", [(1 : ℚ), 3]), ("fake_validity", [(2 : ℚ)])] []
    [(1 : ℚ), 3] [(2 : ℚ)] (by decide) (by decide) (by decide) (by decide)

/-- C2: with a nonnegative clamp value, when `state.need_backward` holds and
the accumulation counter is a multiple of `accumulation_steps`, after the
clamping stage of `WeightClampingOptimizerCallback.on_batch_end`
(`LipzOptimizerCallback`) every parameter value of every param group of the
selected optimizer lies in `[-weight_clamp_value, weight_clamp_value]`;
when `state.need_backward` is false, the clamping stage modifies nothing. -/
theorem weight_clamping_on_batch_end_bounds_params
    (need_backward : Bool) (counter steps : ℕ) (c : ℚ)
    (groups : List (List (List ℚ))) (hc : 0 ≤ c) :
    (need_backward = true → counter % steps = 0 →
      ∀ g ∈ weightClampingOnBatchEnd need_backward counter steps c groups,
        ∀ p ∈ g, ∀ x ∈ p, -c ≤ x ∧ x ≤ c) ∧
    (need_backward = false →
      weightClampingOnBatchEnd need_backward counter steps c groups = groups) := by
  constructor
  · intro hnb hstep g hg p hp x hx
    simp only [weightClampingOnBatchEnd, hnb, Bool.not_true, Bool.false_eq_true,
      if_false, hstep, if_pos] at hg
    simp only [clampParamGroups, List.mem_map] at hg
    obtain ⟨g0, _, rfl⟩ := hg
    simp only [List.mem_map] at hp
    obtain ⟨p0, _, rfl⟩ := hp
    simp only [List.mem_map] at hx
    obtain ⟨x0, _, rfl⟩ := hx
    have hlo : -c ≤ c := le_trans (neg_nonpos_of_nonneg hc) hc
    constructor
    · exact le_min_iff.mpr ⟨hlo, le_max_left _ _⟩
    · exact min_le_left _ _
  · intro hnb
    simp [weightClampingOnBatchEnd, hnb]

/-- Witness for C2 at a concrete optimizer. -/
theorem weight_clamping_on_batch_end_bounds_params_witness :
    ((0 : ℚ) ≤ 1/10) ∧
    ((true = true → 4 % 2 = 0 →
      ∀ g ∈ weightClampingOnBatchEnd true 4 2 (1/10) [[[(5 : ℚ), -3]]],
        ∀ p ∈ g, ∀ x ∈ p, -(1/10 : ℚ) ≤ x ∧ x ≤ 1/10) ∧
     (true = false →
      weightClampingOnBatchEnd true 4 2 (1/10) [[[(5 : ℚ), -3]]] = [[[(5 : ℚ), -3]]])) :=
  ⟨by norm_num,
   weight_clamping_on_batch_end_bounds_params true 4 2 (1/10) [[[(5 : ℚ), -3]]] (by norm_num)⟩

/-- C8: `VisualizationCallback.on_batch_end` increments the per-loader batch
counter and triggers a visualization exactly when the incremented counter is
not a multiple of `batch_frequency`; with `batch_frequency = 25` it
visualizes on 24 of every 25 batches. -/
theorem viz_on_batch_end_triggers_on_non_multiples
    (s : VizState) (freq : ℕ) :
    ((vizOnBatchEnd s freq).1.loader_batch_count = s.loader_batch_count + 1) ∧
    ((vizOnBatchEnd s freq).2 = true ↔ (s.loader_batch_count + 1) % freq ≠ 0) ∧
    (((List.range 25).filter
        (fun k => (vizOnBatchEnd ⟨k, false⟩ 25).2)).length = 24) := by
  refine ⟨?_, ?_, by decide⟩
  · by_cases h : (s.loader_batch_count + 1) % freq ≠ 0 <;>
      simp [vizOnBatchEnd, vizVisualize, h]
  · by_cases h : (s.loader_batch_count + 1) % freq ≠ 0 <;>
      simp [vizOnBatchEnd, vizVisualize, h]

/-- C10: `on_loader_start` resets the batch counter to 0 and the visualized
flag to false; `visualize` sets the flag; after `on_loader_end` the flag is
true, and `on_loader_end` performs a visualization exactly when none
happened during the loader pass. -/
theorem viz_loader_invariant (s : VizState) :
    (vizOnLoaderStart s = ⟨0, false⟩) ∧
    ((vizVisualize s).visualized = true) ∧
    ((vizOnLoaderEnd s).1.visualized = true) ∧
    ((vizOnLoaderEnd s).2 = true ↔ s.visualized = false) := by
  refine ⟨rfl, rfl, ?_, ?_⟩ <;>
    cases h : s.visualized <;> simp [vizOnLoaderEnd, vizVisualize, h]

/-- C5: when `state.input` holds a data tensor under `data_key` and does not
yet hold `injected_noise_key`, `AddBatchNoiseCallback.on_batch_start` stores
under `injected_noise_key` a tensor of shape `(batch_size,) + noise_shape`
(`noise_shape` being the constructor argument normalized to a tuple, a lone
integer n becoming `(n,)`), and leaves every other entry of `state.input`
unchanged. -/
theorem add_batch_noise_stores_shaped_tensor
    (data_key injected_noise_key : String) (arg : NoiseShapeArg)
    (noise : ℕ → ℚ) (input : List (String × QTensor)) (data : QTensor)
    (hd : lookup input data_key = some data)
    (hn : lookup input injected_noise_key = none) :
    ∃ out, addBatchNoiseOnBatchStart data_key injected_noise_key
        (normalizeNoiseShape arg) noise input = .ok out ∧
      (∃ t, lookup out injected_noise_key = some t ∧
        t.shape = data.size0 :: normalizeNoiseShape arg) ∧
      (∀ k, k ≠ injected_noise_key → lookup out k = lookup input k) := by
  refine ⟨setKey input injected_noise_key
      (randn (data.size0 :: normalizeNoiseShape arg) noise), ?_, ?_, ?_⟩
  · simp [addBatchNoiseOnBatchStart, hd, hn]
  · exact ⟨_, lookup_setKey_self _ _ _, rfl⟩
  · intro k hk
    exact lookup_setKey_other _ _ _ _ hk

/-- Witness for C5 at a concrete input dictionary. -/
theorem add_batch_noise_stores_shaped_tensor_witness :
    ∃ out, addBatchNoiseOnBatchStart "data" "noise"
        (normalizeNoiseShape (.int 16)) (fun _ => 0)
        [("data", ⟨[4, 28], List.replicate 112 0⟩)] = .ok out ∧
      (∃ t, lookup out "noise" = some t ∧
        t.shape = QTensor.size0 ⟨[4, 28], List.replicate 112 0⟩ ::
          normalizeNoiseShape (.int 16)) ∧
      (∀ k, k ≠ "noise" → lookup out k =
        lookup [("data", ⟨[4, 28], List.replicate 112 0⟩)] k) :=
  add_batch_noise_stores_shaped_tensor "data" "noise" (.int 16) (fun _ => 0)
    [("data", ⟨[4, 28], List.replicate 112 0⟩)] ⟨[4, 28], List.replicate 112 0⟩
    (by decide) (by decide)

/-- C9: for an even-sized batch whose targets (when `targets_key` is set)
have equal halves, the tensor `SameClassFeaturesRepeatCallback.on_batch_start`
stores under `same_class_data_key` — the dim-0 concatenation of the first and
second halves of the data — equals the original data tensor. -/
theorem same_class_repeat_is_identity_on_data
    (data_key same_class_data_key tk : String)
    (input : List (String × List ℚ)) (dataT target : List ℚ)
    (hd : lookup input data_key = some dataT)
    (ht : lookup input tk = some target)
    (hlen : target.length = dataT.length)
    (heven : dataT.length % 2 = 0)
    (hhalves : target.take (dataT.length / 2) = target.drop (dataT.length / 2))
    (habsent : lookup input same_class_data_key = none) :
    ∃ out, sameClassRepeatOnBatchStart data_key same_class_data_key
        (some tk) input = .ok out ∧
      lookup out same_class_data_key = some dataT := by
  refine ⟨setKey input same_class_data_key dataT, ?_, lookup_setKey_self _ _ _⟩
  have hta : dataT.take (dataT.length / 2) ++ dataT.drop (dataT.length / 2) = dataT :=
    List.take_append_drop _ _
  simp [sameClassRepeatOnBatchStart, hd, ht, hlen, heven, hhalves, habsent, hta]

/-- Witness for C9 at a concrete batch. -/
theorem same_class_repeat_is_identity_on_data_witness :
    ∃ out, sameClassRepeatOnBatchStart "data" "same_class_data"
        (some "class_targets")
        [("data", [(1 : ℚ), 2, 3, 4]), ("class_targets", [(7 : ℚ), 8, 7, 8])] =
        .ok out ∧
      lookup out "same_class_data" = some [(1 : ℚ), 2, 3, 4] :=
  same_class_repeat_is_identity_on_data "data" "same_class_data" "class_targets"
    [("data", [(1 : ℚ), 2, 3, 4]), ("class_targets", [(7 : ℚ), 8, 7, 8])]
    [(1 : ℚ), 2, 3, 4] [(7 : ℚ), 8, 7, 8]
    (by decide) (by decide) (by decide) (by decide) (by decide) (by decide)

/-- Every possible outcome of the gans-variant `denorm` branch. -/
theorem denormGans_cases (dn : Option String) :
    denormGans dn = .error "AttributeError" ∨
    denormGans dn = .error "ValueError: unknown denorm fn" ∨
    ∃ d, denormGans dn = .ok d := by
  cases dn with
  | none => exact Or.inl rfl
  | some s =>
    by_cases h1 : pyLower s = "default"
    · exact Or.inr (Or.inr ⟨.halfShift, by simp [denormGans, h1]⟩)
    · by_cases h2 : pyLower s = "none"
      · exact Or.inr (Or.inr ⟨.ident, by simp [denormGans, h1, h2]⟩)
      · exact Or.inr (Or.inl (by simp [denormGans, h1, h2]))

/-- C4: `VisualizationCallback.__init__` normalizes a single string to a
one-element list and `None` to the empty list, raises `ValueError` for an
argument that is not `None`/string/tuple/list, raises the
"Useless visualizer" `ValueError` exactly when both normalized key lists are
empty, and only succeeds with a positive (integer-converted)
`batch_frequency`. -/
theorem viz_init_normalizes_and_validates
    (ia oa : KeysArg) (bf : ℤ) (ci : Bool) (dn : Option String)
    (ik okl : List String)
    (hik : normalizeKeys ia = .ok ik) (hok : normalizeKeys oa = .ok okl) :
    (∀ s, normalizeKeys (.str s) = .ok [s]) ∧
    (normalizeKeys .pynone = .ok []) ∧
    (∃ e, normalizeKeys .other = .error e) ∧
    (vizInit ia oa bf ci dn = .error "ValueError: Useless visualizer" ↔
      ik = [] ∧ okl = []) ∧
    (∀ cfg, vizInit ia oa bf ci dn = .ok cfg → 0 < bf) := by
  refine ⟨fun s => rfl, rfl, ⟨_, rfl⟩, ?_, ?_⟩
  · simp only [vizInit, hik, hok]
    by_cases hemp : ik.length + okl.length = 0
    · have hik0 : ik = [] := List.eq_nil_of_length_eq_zero (by omega)
      have hok0 : okl = [] := List.eq_nil_of_length_eq_zero (by omega)
      simp [hemp, hik0, hok0]
    · rw [if_neg hemp]
      constructor
      · intro h
        exfalso
        by_cases hbf : bf ≤ 0
        · rw [if_pos hbf] at h
          exact absurd (Except.error.inj h) (by decide)
        · rw [if_neg hbf] at h
          rcases denormGans_cases dn with hd | hd | ⟨d, hd⟩ <;> rw [hd] at h
          · exact absurd (Except.error.inj h) (by decide)
          · exact absurd (Except.error.inj h) (by decide)
          · exact Except.noConfusion h
      · rintro ⟨h1, h2⟩
        exact absurd (by simp [h1, h2]) hemp
  · intro cfg h
    simp only [vizInit, hik, hok] at h
    by_cases hemp : ik.length + okl.length = 0
    · rw [if_pos hemp] at h
      exact Except.noConfusion h
    · rw [if_neg hemp] at h
      by_cases hbf : bf ≤ 0
      · rw [if_pos hbf] at h
        exact Except.noConfusion h
      · omega

/-- Witness for C4 at concrete constructor arguments. -/
theorem viz_init_normalizes_and_validates_witness :
    normalizeKeys (.str "image") = .ok ["image"] ∧
    normalizeKeys .pynone = .ok [] ∧
    ((∀ s, normalizeKeys (.str s) = .ok [s]) ∧
     (normalizeKeys .pynone = .ok []) ∧
     (∃ e, normalizeKeys .other = .error e) ∧
     (vizInit (.str "image") .pynone 25 true (some "default") =
        .error "ValueError: Useless visualizer" ↔
       ["image"] = ([] : List String) ∧ ([] : List String) = []) ∧
     (∀ cfg, vizInit (.str "image") .pynone 25 true (some "default") = .ok cfg →
        (0 : ℤ) < 25)) :=
  ⟨rfl, rfl,
   viz_init_normalizes_and_validates (.str "image") .pynone 25 true
     (some "default") ["image"] [] rfl rfl⟩

/-- C6: in the `mnist_gans`/`mnist_advanced_gans` variant a `None` denorm
argument raises `AttributeError` (the code calls `None.lower()` before its
own `denorm is None` test), contradicting both the claim and the intent
visible in the code's `elif denorm is None` branch; in the `autoencoders`
variant `None` yields the identity.  The `"default"` function is
`x / 2 + 1/2` and maps `[-1, 1]` into `[0, 1]`; `"none"` (where accepted)
yields the identity; any other string raises `ValueError`. -/
theorem denorm_none_raises_attribute_error_in_gans :
    denormGans none = .error "AttributeError" ∧
    denormAuto none = .ok .ident ∧
    denormGans (some "default") = .ok .halfShift ∧
    denormAuto (some "default") = .ok .halfShift ∧
    (∀ x : ℚ, -1 ≤ x → x ≤ 1 →
      0 ≤ DenormFn.apply .halfShift x ∧ DenormFn.apply .halfShift x ≤ 1) ∧
    denormGans (some "none") = .ok .ident ∧
    (∀ x : ℚ, DenormFn.apply .ident x = x) ∧
    (∀ s, pyLower s ≠ "default" → pyLower s ≠ "none" →
      denormGans (some s) = .error "ValueError: unknown denorm fn") ∧
    (∀ s, s ≠ "default" →
      denormAuto (some s) = .error "ValueError: unknown denorm fn") := by
  have hdef : pyLower "default" = "default" := by decide
  have hnd : ¬ pyLower "none" = "default" := by decide
  have hnn : pyLower "none" = "none" := by decide
  refine ⟨rfl, rfl, by simp [denormGans, hdef], rfl, ?_,
    by simp [denormGans, hnd, hnn], fun x => rfl, ?_, ?_⟩
  · intro x h1 h2
    constructor
    · simp only [DenormFn.apply]
      linarith
    · simp only [DenormFn.apply]
      linarith
  · intro s h1 h2
    simp [denormGans, h1, h2]
  · intro s h1
    simp [denormAuto, h1]

/-- Witness for C6: the interval bound instantiated at a concrete point. -/
theorem denorm_none_raises_attribute_error_in_gans_witness :
    (-1 : ℚ) ≤ 0 ∧ (0 : ℚ) ≤ 1 ∧
    (0 ≤ DenormFn.apply .halfShift 0 ∧ DenormFn.apply .halfShift 0 ≤ 1) :=
  ⟨by norm_num, by norm_num,
   denorm_none_raises_attribute_error_in_gans.2.2.2.2.1 0 (by norm_num) (by norm_num)⟩

/-- C7: `save_visualizations` raises `RuntimeError` exactly when the
`"tensorboard"` key is absent from `state.loggers` or the current loader
name is absent from that logger's `loggers` dict; otherwise
`_get_tensorboard_logger` returns the logger registered for the loader. -/
theorem save_visualizations_runtime_error_iff
    {W : Type} (loggers : List (String × List (String × W)))
    (loader_name : String) :
    ((∃ e, saveVisualizations loggers loader_name = .error e) ↔
      (lookup loggers "tensorboard" = none ∨
        ∃ tb, lookup loggers "tensorboard" = some tb ∧
          lookup tb loader_name = none)) ∧
    (∀ tb w, lookup loggers "tensorboard" = some tb →
      lookup tb loader_name = some w →
      getTensorboardLogger loggers loader_name = .ok w) := by
  cases htb : lookup loggers "tensorboard" with
  | none =>
    refine ⟨?_, ?_⟩
    · simp [saveVisualizations, getTensorboardLogger, htb]
    · intro tb w h _
      exact Option.noConfusion h
  | some tb =>
    cases hl : lookup tb loader_name with
    | none =>
      refine ⟨?_, ?_⟩
      · simp [saveVisualizations, getTensorboardLogger, htb, hl]
      · intro tb' w h h'
        obtain rfl := Option.some.inj h
        rw [hl] at h'
        exact Option.noConfusion h'
    | some w =>
      refine ⟨?_, ?_⟩
      · simp [saveVisualizations, getTensorboardLogger, htb, hl]
      · intro tb' w' h h'
        obtain rfl := Option.some.inj h
        rw [hl] at h'
        obtain rfl := Option.some.inj h'
        simp [getTensorboardLogger, htb, hl]

/-- Witness for C7 at a concrete logger registry. -/
theorem save_visualizations_runtime_error_iff_witness :
    lookup [("tensorboard", [("train", (0 : ℕ))])] "tensorboard" =
      some [("train", (0 : ℕ))] ∧
    lookup [("train", (0 : ℕ))] "train" = some 0 ∧
    getTensorboardLogger [("tensorboard", [("train", (0 : ℕ))])] "train" = .ok 0 :=
  ⟨by decide, by decide,
   (save_visualizations_runtime_error_iff
       [("tensorboard", [("train", (0 : ℕ))])] "train").2
     [("train", (0 : ℕ))] 0 (by decide) (by decide)⟩

theorem oneHotRow_length (n : ℕ) (t : ℤ) : (oneHotRow n t).length = n := by
  rw [oneHotRow, List.length_map, List.length_range]

theorem oneHotRow_getD (n : ℕ) (t : ℤ) (j : ℕ) (hj : j < n) :
    (oneHotRow n t).getD j 0 = if t = (j : ℤ) then 1 else 0 := by
  rw [List.getD_eq_getElem _ _ (by rw [oneHotRow_length]; exact hj)]
  simp only [oneHotRow, List.getElem_map, List.getElem_range]

theorem oneHotMatrix_length (b n : ℕ) (tgt : List ℤ) :
    (oneHotMatrix b n tgt).length = b := by
  rw [oneHotMatrix, List.length_map, List.length_range]

theorem oneHotMatrix_getD (b n : ℕ) (tgt : List ℤ) (i : ℕ) (hi : i < b) :
    (oneHotMatrix b n tgt).getD i [] = oneHotRow n (tgt.getD i 0) := by
  rw [List.getD_eq_getElem _ _ (by rw [oneHotMatrix_length]; exact hi)]
  simp only [oneHotMatrix, List.getElem_map, List.getElem_range]

/-- C3: for a one-dimensional integer target tensor of length `batch_size`
with every entry in `[0, n_classes)`, `OneHotTransformCallback.on_batch_start`
stores under `one_hot_target_key` a tensor of shape
`(batch_size, n_classes)` whose entry `(i, j)` is 1 when `targets[i] = j`
and 0 otherwise; for a target tensor of more than one dimension it raises
`NotImplementedError`. -/
theorem one_hot_transform_builds_indicator_matrix
    (n_classes : ℕ) (data_key target_key one_hot_key : String)
    (input : List (String × IntTensor)) (data targets : IntTensor)
    (hd : lookup input data_key = some data)
    (ht : lookup input target_key = some targets)
    (habs : lookup input one_hot_key = none) :
    (targets.ndim > 1 →
      oneHotOnBatchStart n_classes data_key target_key one_hot_key input =
        .error "NotImplementedError") ∧
    (targets.shape = [data.size0] →
      targets.data.length = data.size0 →
      (∀ t ∈ targets.data, 0 ≤ t ∧ t < (n_classes : ℤ)) →
      ∃ out, oneHotOnBatchStart n_classes data_key target_key one_hot_key
          input = .ok out ∧
        ∃ oh, lookup out one_hot_key = some oh ∧
          oh.shape = [data.size0, n_classes] ∧
          ∀ i < data.size0, ∀ j < n_classes,
            oh.data.getD (i * n_classes + j) 0 =
              if targets.data.getD i 0 = (j : ℤ) then 1 else 0) := by
  constructor
  · intro hnd
    simp [oneHotOnBatchStart, hd, ht, habs, hnd]
  · intro hshape hlen hrange
    have hnd : ¬ targets.ndim > 1 := by simp [IntTensor.ndim, hshape]
    have hall : targets.data.all
        (fun t => decide (0 ≤ t ∧ t < (n_classes : ℤ))) = true := by
      rw [List.all_eq_true]
      intro t htm
      exact decide_eq_true (hrange t htm)
    refine ⟨setKey input one_hot_key
        ⟨[data.size0, n_classes],
          (oneHotMatrix data.size0 n_classes targets.data).flatten⟩, ?_, ?_⟩
    · simp only [oneHotOnBatchStart, hd, ht, habs, Option.isSome_none,
        Bool.false_eq_true, if_false, hnd, hlen]
      simp only [List.all_eq_true, decide_eq_true_eq, not_forall, ite_not]
      rw [if_pos trivial, if_pos hrange]
    · refine ⟨_, lookup_setKey_self _ _ _, rfl, ?_⟩
      intro i hi j hj
      have hrows : ∀ r ∈ oneHotMatrix data.size0 n_classes targets.data,
          r.length = n_classes := by
        intro r hr
        simp only [oneHotMatrix, List.mem_map] at hr
        obtain ⟨i0, _, rfl⟩ := hr
        exact oneHotRow_length _ _
      rw [flatten_getD_eq _ i j hrows
        (by rw [oneHotMatrix_length]; exact hi) hj]
      rw [oneHotMatrix_getD _ _ _ _ hi, oneHotRow_getD _ _ _ hj]

/-- Witness for C3 at a concrete batch: two samples, three classes,
targets `[1, 0]`. -/
theorem one_hot_transform_builds_indicator_matrix_witness :
    ∃ out, oneHotOnBatchStart 3 "data" "target" "one_hot_target"
        [("data", ⟨[2], [5, 7]⟩), ("target", ⟨[2], [1, 0]⟩)] = .ok out ∧
      ∃ oh, lookup out "one_hot_target" = some oh ∧
        oh.shape = [2, 3] ∧
        ∀ i < 2, ∀ j < 3,
          oh.data.getD (i * 3 + j) 0 =
            if ([(1 : ℤ), 0]).getD i 0 = (j : ℤ) then 1 else 0 :=
  (one_hot_transform_builds_indicator_matrix 3 "data" "target" "one_hot_target"
      [("data", ⟨[2], [5, 7]⟩), ("target", ⟨[2], [1, 0]⟩)]
      ⟨[2], [5, 7]⟩ ⟨[2], [1, 0]⟩ (by decide) (by decide) (by decide)).2
    (by decide) (by decide) (by decide)

end CatalystClaims
